import Mathlib

/-!
Verification of the data_clustering repository: a shallow embedding of the
clustering adapters (src/clustering/utils/algorithms.py), the composition
root (src/clustering/utils/container.py), the configuration validators
(src/clustering/utils/data_model.py) and the input handler
(src/clustering/utils/input_handler.py), together with theorems settling
the specification claims.
-/

/-- A numpy 2-D numeric array (`np.ndarray`), modelled as a list of rows of
integer entries. The claims under study are structural (shapes, traces,
acceptance conditions), so integer entries suffice. -/
abbrev NDArray := List (List Int)

/-- Total element count of an array, mirroring `ndarray.size` (an array with
rows but zero columns also has size 0, exactly as in numpy). -/
def npSize (d : NDArray) : Nat := (d.map (fun r => r.length)).sum

/-- Embedding of `np.hstack((data, labels.reshape(-1, 1)))`: appends one
label entry at the right end of each row. -/
def hstack (d : NDArray) (labels : List Int) : NDArray :=
  List.zipWith (fun row l => row ++ [l]) d labels

/-- One call made by an adapter against its scikit-learn backend instance,
recording the method name and the array argument. -/
inductive BackendCall
  | fit (d : NDArray)
  | predict (d : NDArray)
  | fitPredict (d : NDArray)
deriving DecidableEq, Repr

/-- The argument array of a backend call. -/
def BackendCall.callArg : BackendCall → NDArray
  | .fit d => d
  | .predict d => d
  | .fitPredict d => d

/-- Whether a backend call is a call of the `fit` method. -/
def BackendCall.isFitCall : BackendCall → Bool
  | .fit _ => true
  | _ => false

/-- Whether a backend call derives labels (`predict` or the combined
fit-and-label `fit_predict`). -/
def BackendCall.isLabelCall : BackendCall → Bool
  | .predict _ => true
  | .fitPredict _ => true
  | _ => false

/-- An opaque scikit-learn clustering backend. Its numerical behaviour is
abstracted as a labelling function: after the backend has been fitted to an
array, label derivation on that same array returns `labeler` of it.
Scikit-learn's fit/predict/fit_predict read their array argument and mutate
only the backend's own fitted state, never the argument. -/
structure Backend where
  labeler : NDArray → List Int

/-- Embedding of `KMeans.cluster_data` (algorithms.py lines 46-64): empty
data is returned as is; otherwise the backend is fitted to the data, labels
come from `predict` on the same data, and the labels are appended as a
column. The second component records the calls made against the backend. -/
def KMeans.cluster_data (self : Backend) (data : NDArray) :
    NDArray × List BackendCall :=
  if npSize data = 0 then (data, [])
  else
    (hstack data (self.labeler data),
     [BackendCall.fit data, BackendCall.predict data])

/-- Embedding of `DBSCAN.cluster_data` (algorithms.py lines 87-105): empty
data is returned as is; otherwise the backend is fitted to the data, labels
come from the combined `fit_predict` call on the same data, and the labels
are appended as a column. -/
def DBSCAN.cluster_data (self : Backend) (data : NDArray) :
    NDArray × List BackendCall :=
  if npSize data = 0 then (data, [])
  else
    (hstack data (self.labeler data),
     [BackendCall.fit data, BackendCall.fitPredict data])

/-- Modelled from the spec: the `MeanShift` adapter class is referenced by
the composition root (container.py line 8) and by the test suite but its
definition is missing from algorithms.py. Per spec §4.1/§4.2 it is a
one-to-one adapter over the mode-seeking backend following the shared
contract: empty data returned as is, otherwise fit the backend, derive one
label per row on the same data (the mode-seeking backend exposes a separate
predict step) and append the label column. -/
def MeanShift.cluster_data (self : Backend) (data : NDArray) :
    NDArray × List BackendCall :=
  if npSize data = 0 then (data, [])
  else
    (hstack data (self.labeler data),
     [BackendCall.fit data, BackendCall.predict data])

/-- The three supported algorithm tags. -/
inductive AlgoTag
  | kmeans
  | dbscan
  | mean_shift
deriving DecidableEq, Repr

/-- The `cluster_data` contract call dispatched over the supported tags. -/
def clusterData : AlgoTag → Backend → NDArray → NDArray × List BackendCall
  | .kmeans => KMeans.cluster_data
  | .dbscan => DBSCAN.cluster_data
  | .mean_shift => MeanShift.cluster_data

/-- Heap-level view of a `cluster_data` call, used for the frame claim:
arrays live in a heap addressed by indices, the call reads the array at the
given reference and, for non-empty data, allocates the labelled result as a
fresh array (`np.hstack` always builds a new array); for empty data the very
same reference is handed back. No existing heap cell is ever written. -/
def clusterDataOnHeap (tag : AlgoTag) (b : Backend) (heap : List NDArray)
    (r : Nat) : List NDArray × Nat :=
  let data := heap.getD r []
  if npSize data = 0 then (heap, r)
  else (heap ++ [(clusterData tag b data).1], heap.length)

/-- Family of a clustering approach: centroid-based (k-means), density-based
(dbscan) or mode-seeking (mean shift). -/
inductive Family
  | centroid
  | density
  | modeSeeking
deriving DecidableEq, Repr

/-- The adapter classes of algorithms.py (`MeanShift` modelled from the
spec, see `MeanShift.cluster_data`). -/
inductive Adapter
  | kmeansAdapter
  | dbscanAdapter
  | meanShiftAdapter
deriving DecidableEq, Repr

/-- The scikit-learn backend singletons built by the container
(`sklearn_kmeans`, `sklearn_dbscan`, `sklearn_mean_shift`). -/
inductive SklearnBackend
  | sklearnKMeans
  | sklearnDBSCAN
  | sklearnMeanShift
deriving DecidableEq, Repr

/-- Family of an adapter class. -/
def Adapter.family : Adapter → Family
  | .kmeansAdapter => .centroid
  | .dbscanAdapter => .density
  | .meanShiftAdapter => .modeSeeking

/-- Family of a scikit-learn backend. -/
def SklearnBackend.family : SklearnBackend → Family
  | .sklearnKMeans => .centroid
  | .sklearnDBSCAN => .density
  | .sklearnMeanShift => .modeSeeking

/-- A resolved strategy: an adapter instance holding one backend instance
(`kmeans = Singleton(KMeans, algo=sklearn_kmeans)` and so on). -/
structure Strategy where
  adapter : Adapter
  backend : SklearnBackend
deriving DecidableEq, Repr

/-- Embedding of the container's `algorithm` selector (container.py lines
138-143): the table maps `kmeans` to the KMeans adapter over the
`sklearn_kmeans` backend, `dbscan` to the DBSCAN adapter over
`sklearn_dbscan`, `mean_shift` to the MeanShift adapter over
`sklearn_mean_shift`; any other tag has no provider and resolution raises
(modelled by `none`). -/
def Container.algorithm : String → Option Strategy
  | "kmeans" => some ⟨Adapter.kmeansAdapter, SklearnBackend.sklearnKMeans⟩
  | "dbscan" => some ⟨Adapter.dbscanAdapter, SklearnBackend.sklearnDBSCAN⟩
  | "mean_shift" =>
      some ⟨Adapter.meanShiftAdapter, SklearnBackend.sklearnMeanShift⟩
  | _ => none

/-- The concrete output handler classes of output_handler.py. -/
inductive OutputHandlerKind
  | numpyHandler
  | jsonHandler
deriving DecidableEq, Repr

/-- Embedding of the container's `output_handler` selector (container.py
lines 164-168): `numpy` maps to `NumpyOutputHandler`, `json` to
`JSONOutputHandler`; any other format tag has no provider and resolution
raises (modelled by `none`). -/
def Container.output_handler : String → Option OutputHandlerKind
  | "numpy" => some OutputHandlerKind.numpyHandler
  | "json" => some OutputHandlerKind.jsonHandler
  | _ => none

/-- A scalar value of the parsed YAML configuration document, as produced by
`yaml.safe_load`. -/
inductive YamlVal
  | intVal (n : Int)
  | floatVal (q : Rat)
  | strVal (s : String)
  | boolVal (b : Bool)
  | nullVal
deriving DecidableEq, Repr

/-- Python `int()` truncation of a rational toward zero, as applied by the
validation library when an int-typed field receives a float. -/
def ratTrunc (q : Rat) : Int :=
  (if q.num < 0 then -1 else 1) * ((q.num.natAbs / q.den : Nat) : Int)

/-- Validation of an int-typed field, following the pydantic v1 `int`
coercion used by the repository (its own fixtures rely on v1 behaviour,
validating `random_state: False`): genuine ints pass, bools coerce to 0/1,
floats are truncated by `int()`, strings parse as integer literals, anything
else fails. `none` is a missing or uncoercible value. -/
def coerceInt : Option YamlVal → Option Int
  | some (.intVal n) => some n
  | some (.boolVal b) => some (if b then 1 else 0)
  | some (.floatVal q) => some (ratTrunc q)
  | some (.strVal s) => s.toInt?
  | some .nullVal => none
  | none => none

/-- Validation of an `Optional[int]` field under pydantic v1: a missing
field defaults to None, an explicit null is None, otherwise the int
coercion applies. `none` means the field is invalid. -/
def coerceOptInt : Option YamlVal → Option (Option Int)
  | none => some none
  | some .nullVal => some none
  | some v => (coerceInt (some v)).map some

/-- Validation of a `str`-typed field under pydantic v1: strings pass and
numeric or boolean scalars are coerced by `str()`; null or missing fails. -/
def coerceStr : Option YamlVal → Option String
  | some (.strVal s) => some s
  | some (.intVal n) => some (toString n)
  | some (.floatVal q) => some (toString q)
  | some (.boolVal b) => some (if b then "True" else "False")
  | some .nullVal => none
  | none => none

/-- Validation of a `Literal[...]` field over string literals: the value
must be exactly one of the permitted strings. -/
def literalCheck (allowed : List String) : Option YamlVal → Bool
  | some (.strVal s) => allowed.contains s
  | _ => false

/-- The raw `kmeans` parameter mapping of the configuration document
(fields of `KMeansParamsConfig`, data_model.py lines 45-48); `none` marks an
absent key. -/
structure RawKMeansParams where
  n_clusters : Option YamlVal
  random_state : Option YamlVal
  max_iter : Option YamlVal
  init : Option YamlVal
deriving DecidableEq, Repr

/-- The raw configuration document as parsed from YAML, restricted to the
keys the examined models read: the three universal fields and the nested
`kmeans` parameter mapping (present as a mapping or absent); extra keys are
ignored by the models and therefore not represented. -/
structure RawConfig where
  algorithm_type : Option YamlVal
  input_data_path : Option YamlVal
  output_data_format : Option YamlVal
  kmeans : Option RawKMeansParams
deriving DecidableEq, Repr

/-- The algorithm tags permitted by `ConfigModel.algorithm_type`. -/
def algorithmTags : List String := ["kmeans", "dbscan", "mean_shift"]

/-- The output format tags permitted by `ConfigModel.output_data_format`
(data_model.py line 22): numpy, csv and json. -/
def outputFormats : List String := ["numpy", "csv", "json"]

/-- Embedding of the `ConfigModel` schema check (data_model.py lines
20-22): `algorithm_type` a literal among the three tags, `input_data_path`
a `str` field, `output_data_format` a literal among numpy, csv, json. -/
def ConfigModel.validate (c : RawConfig) : Bool :=
  literalCheck algorithmTags c.algorithm_type &&
  (coerceStr c.input_data_path).isSome &&
  literalCheck outputFormats c.output_data_format

/-- Embedding of the `KMeansParamsConfig` schema check (data_model.py lines
45-48): `n_clusters` int greater than 0, `random_state` Optional[int],
`max_iter` int greater than 0, `init` a literal among random, k-means++. -/
def KMeansParamsConfig.validate (p : RawKMeansParams) : Bool :=
  (match coerceInt p.n_clusters with
   | some n => decide (0 < n)
   | none => false) &&
  (coerceOptInt p.random_state).isSome &&
  (match coerceInt p.max_iter with
   | some n => decide (0 < n)
   | none => false) &&
  literalCheck ["random", "k-means++"] p.init

/-- Embedding of the `KMeansModel` schema check (data_model.py lines
116-127): the `ConfigModel` fields with `algorithm_type` narrowed to the
literal kmeans, plus the required nested `kmeans` parameter record. -/
def KMeansModel.validate (c : RawConfig) : Bool :=
  literalCheck ["kmeans"] c.algorithm_type &&
  (coerceStr c.input_data_path).isSome &&
  literalCheck outputFormats c.output_data_format &&
  (match c.kmeans with
   | some p => KMeansParamsConfig.validate p
   | none => false)

/-- The single generic error raised by `ConfigValidator.validate_data`: the
Python code catches the library's `ValidationError` and raises
`TypeError("Config file is not correct.")`, carrying no field detail. -/
inductive ConfigError
  | configFileNotCorrect
deriving DecidableEq, Repr

/-- Embedding of `ConfigValidator.validate_data` (data_model.py lines
179-194) applied to the already-parsed configuration document: run the
held model's structural check and collapse any failure into the one generic
typed error. -/
def ConfigValidator.validate_data (model : RawConfig → Bool)
    (c : RawConfig) : Except ConfigError Unit :=
  if model c then Except.ok () else Except.error ConfigError.configFileNotCorrect

/-- Content stored at an input path: bytes of a `.npy` binary numeric
array, text of a JSON nested numeric array, or something else. -/
inductive FileContent
  | npyContent (arr : NDArray)
  | jsonContent (nested : List (List Int))
  | otherContent
deriving DecidableEq, Repr

/-- An input file as seen by the handler: whether the path exists, the
path's suffix, and the stored content. -/
structure InputFile where
  pathExists : Bool
  suffix : String
  content : FileContent
deriving DecidableEq, Repr

/-- The failures of `InputHandler.load_data`: the existence check raises
`FileExistsError`, an unknown suffix raises the unsupported-format
`ValueError`, and the numpy/json parsers raise on content of the wrong
shape. -/
inductive LoadError
  | fileNotFound
  | unsupportedFormat
  | parseFailure
deriving DecidableEq, Repr

/-- Embedding of `np.array` applied to a JSON-decoded nested numeric list:
the nested list is the 2-D array's rows. -/
def npArray (nested : List (List Int)) : NDArray := nested

/-- Embedding of `InputHandler.load_data` (input_handler.py lines 38-48):
fail if the path does not exist; load `.npy` content with `np.load`; load
`.json` content with `json.load` followed by `np.array`; reject every other
suffix with the unsupported-format error. -/
def InputHandler.load_data (f : InputFile) : Except LoadError NDArray :=
  if f.pathExists = false then Except.error LoadError.fileNotFound
  else if f.suffix = ".npy" then
    match f.content with
    | FileContent.npyContent arr => Except.ok arr
    | _ => Except.error LoadError.parseFailure
  else if f.suffix = ".json" then
    match f.content with
    | FileContent.jsonContent nested => Except.ok (npArray nested)
    | _ => Except.error LoadError.parseFailure
  else Except.error LoadError.unsupportedFormat

/-- A concrete backend assigning label 0 to every row, used to instantiate
theorems at concrete inputs. -/
def zeroBackend : Backend := ⟨fun d => d.map (fun _ => 0)⟩

/-- The six-point dataset of the specification's testable properties. -/
def dataSix : NDArray := [[1, 2], [1, 4], [1, 0], [10, 2], [10, 4], [10, 0]]

lemma clusterData_empty_eq (tag : AlgoTag) (b : Backend) (data : NDArray)
    (h : npSize data = 0) : clusterData tag b data = (data, []) := by
  cases tag <;>
    simp [clusterData, KMeans.cluster_data, DBSCAN.cluster_data,
      MeanShift.cluster_data, h]

lemma clusterData_nonempty_fst (tag : AlgoTag) (b : Backend) (data : NDArray)
    (h : npSize data ≠ 0) :
    (clusterData tag b data).1 = hstack data (b.labeler data) := by
  cases tag <;>
    simp [clusterData, KMeans.cluster_data, DBSCAN.cluster_data,
      MeanShift.cluster_data, h]

lemma hstack_length (d : NDArray) (ls : List Int) (h : ls.length = d.length) :
    (hstack d ls).length = d.length := by
  simp [hstack, h]

lemma hstack_getD (d : NDArray) (ls : List Int) (i : Nat)
    (hd : i < d.length) (hl : i < ls.length) :
    (hstack d ls).getD i [] = d.getD i [] ++ [ls.getD i 0] := by
  induction d generalizing ls i with
  | nil => simp at hd
  | cons row rows ih =>
    cases ls with
    | nil => simp at hl
    | cons l ls2 =>
      cases i with
      | zero => simp [hstack]
      | succ n =>
        have hd2 : n < rows.length := by simpa using hd
        have hl2 : n < ls2.length := by simpa using hl
        simpa [hstack] using ih ls2 n hd2 hl2

lemma validate_data_ok_iff (model : RawConfig → Bool) (c : RawConfig) :
    ConfigValidator.validate_data model c = Except.ok () ↔ model c = true := by
  unfold ConfigValidator.validate_data
  split <;> simp_all

lemma validate_data_cases (model : RawConfig → Bool) (c : RawConfig) :
    ConfigValidator.validate_data model c = Except.ok () ∨
    ConfigValidator.validate_data model c =
      Except.error ConfigError.configFileNotCorrect := by
  unfold ConfigValidator.validate_data
  split <;> simp

/-- A configuration whose universal fields are the tag kmeans, an empty
input path and the csv output format. -/
def csvConfig : RawConfig :=
  ⟨some (YamlVal.strVal "kmeans"), some (YamlVal.strVal ""),
   some (YamlVal.strVal "csv"), none⟩

/-- A kmeans configuration whose `n_clusters` value is the given scalar and
whose remaining fields are the repository's valid fixture values. -/
def kmParamsWith (v : Option YamlVal) : RawKMeansParams :=
  ⟨v, some (YamlVal.boolVal false), some (YamlVal.intVal 250),
   some (YamlVal.strVal "k-means++")⟩

/-- A full kmeans configuration document around `kmParamsWith`. -/
def kmConfigWith (v : Option YamlVal) : RawConfig :=
  ⟨some (YamlVal.strVal "kmeans"), some (YamlVal.strVal "input_data.npy"),
   some (YamlVal.strVal "numpy"), some (kmParamsWith v)⟩

/-- C3: for every supported algorithm tag and every configuration of the
backend, `cluster_data` on an empty dataset (zero elements) returns the
dataset unchanged, invoking no backend method and appending no label
column. -/
theorem c3_empty_dataset_unchanged (tag : AlgoTag) (b : Backend)
    (data : NDArray) (h : npSize data = 0) :
    clusterData tag b data = (data, []) :=
  clusterData_empty_eq tag b data h

/-- Witness for C3 at the empty array and the dbscan tag. -/
theorem c3_empty_dataset_unchanged_witness :
    clusterData AlgoTag.dbscan zeroBackend [] = ([], []) :=
  c3_empty_dataset_unchanged AlgoTag.dbscan zeroBackend [] (by decide)

/-- C2: for every supported algorithm tag and every non-empty dataset, a
`cluster_data` call invokes the backend's `fit` method exactly once with
exactly the input dataset, and the single label-derivation call (`predict`
or the combined `fit_predict`) also receives exactly that dataset. -/
theorem c2_fit_once_same_input (tag : AlgoTag) (b : Backend)
    (data : NDArray) (h : npSize data ≠ 0) :
    (clusterData tag b data).2.filter BackendCall.isFitCall =
      [BackendCall.fit data] ∧
    ((clusterData tag b data).2.filter BackendCall.isLabelCall).map
      BackendCall.callArg = [data] := by
  cases tag <;>
    simp [clusterData, KMeans.cluster_data, DBSCAN.cluster_data,
      MeanShift.cluster_data, h, BackendCall.isFitCall,
      BackendCall.isLabelCall, BackendCall.callArg, List.filter]

/-- Witness for C2 at the six-point dataset and the kmeans tag. -/
theorem c2_fit_once_same_input_witness :
    (clusterData AlgoTag.kmeans zeroBackend dataSix).2.filter
      BackendCall.isFitCall = [BackendCall.fit dataSix] ∧
    ((clusterData AlgoTag.kmeans zeroBackend dataSix).2.filter
      BackendCall.isLabelCall).map BackendCall.callArg = [dataSix] :=
  c2_fit_once_same_input AlgoTag.kmeans zeroBackend dataSix (by decide)

/-- C4: for every supported algorithm tag and every non-empty rectangular
dataset with N rows (and one label per row from the backend), the result of
`cluster_data` has exactly N rows, every result row has exactly one more
column than the input, and each result row is the input row with its integer
label appended as the rightmost entry. -/
theorem c4_result_shape (tag : AlgoTag) (b : Backend) (data : NDArray)
    (m : Nat) (h : npSize data ≠ 0) (hrect : ∀ row ∈ data, row.length = m)
    (hlab : (b.labeler data).length = data.length) :
    (clusterData tag b data).1.length = data.length ∧
    (∀ i, i < (clusterData tag b data).1.length →
       ((clusterData tag b data).1.getD i []).length = m + 1) ∧
    (∀ i, i < (clusterData tag b data).1.length →
       (clusterData tag b data).1.getD i [] =
         data.getD i [] ++ [(b.labeler data).getD i 0]) := by
  rw [clusterData_nonempty_fst tag b data h]
  have hlen : (hstack data (b.labeler data)).length = data.length :=
    hstack_length data (b.labeler data) hlab
  have hget : ∀ i, i < data.length →
      (hstack data (b.labeler data)).getD i [] =
        data.getD i [] ++ [(b.labeler data).getD i 0] := by
    intro i hi
    exact hstack_getD data (b.labeler data) i hi (by omega)
  refine ⟨hlen, ?_, ?_⟩
  · intro i hi
    rw [hlen] at hi
    have hrow : (data.getD i []).length = m := by
      rw [List.getD_eq_getElem data [] hi]
      exact hrect _ (List.getElem_mem hi)
    rw [hget i hi, List.length_append, hrow]
    rfl
  · intro i hi
    rw [hlen] at hi
    exact hget i hi

/-- Witness for C4 at the six-point two-column dataset and the mean shift
tag. -/
theorem c4_result_shape_witness :
    (clusterData AlgoTag.mean_shift zeroBackend dataSix).1.length = 6 ∧
    ((clusterData AlgoTag.mean_shift zeroBackend dataSix).1.getD 0 []).length
      = 3 := by
  have h := c4_result_shape AlgoTag.mean_shift zeroBackend dataSix 2
    (by decide) (by decide) (by decide)
  exact ⟨h.1, by have h2 := h.2.1 0 (by rw [h.1]; decide); simpa using h2⟩

/-- C10: for every supported algorithm tag, a `cluster_data` call never
writes to any existing array: every array in the heap holds afterwards
exactly the values it held before, the labelled result of a non-empty call
lives at a freshly allocated reference, and the array at the returned
reference is the contract's result value. -/
theorem c10_input_not_mutated (tag : AlgoTag) (b : Backend)
    (heap : List NDArray) (r : Nat) :
    (∀ i, i < heap.length →
       (clusterDataOnHeap tag b heap r).1.getD i [] = heap.getD i []) ∧
    (npSize (heap.getD r []) ≠ 0 →
       heap.length ≤ (clusterDataOnHeap tag b heap r).2) ∧
    (clusterDataOnHeap tag b heap r).1.getD
      (clusterDataOnHeap tag b heap r).2 [] =
      (clusterData tag b (heap.getD r [])).1 := by
  by_cases h : npSize (heap.getD r []) = 0
  · refine ⟨fun i hi => ?_, fun hc => absurd h hc, ?_⟩
    · simp only [clusterDataOnHeap, if_pos h]
    · simp only [clusterDataOnHeap, if_pos h]
      rw [clusterData_empty_eq tag b (heap.getD r []) h]
  · refine ⟨fun i hi => ?_, fun _ => ?_, ?_⟩
    · simp only [clusterDataOnHeap, if_neg h]
      exact List.getD_append _ _ _ _ hi
    · simp only [clusterDataOnHeap, if_neg h]
      exact Nat.le_refl _
    · simp only [clusterDataOnHeap, if_neg h]
      rw [List.getD_append_right _ _ _ _ (Nat.le_refl _)]
      simp

/-- Witness for C10 at a one-array heap holding the six-point dataset. -/
theorem c10_input_not_mutated_witness :
    (clusterDataOnHeap AlgoTag.dbscan zeroBackend [dataSix] 0).1.getD 0 [] =
      [dataSix].getD 0 [] ∧
    1 ≤ (clusterDataOnHeap AlgoTag.dbscan zeroBackend [dataSix] 0).2 :=
  ⟨(c10_input_not_mutated AlgoTag.dbscan zeroBackend [dataSix] 0).1 0
      (by decide),
   (c10_input_not_mutated AlgoTag.dbscan zeroBackend [dataSix] 0).2.1
      (by decide)⟩

/-- C1: resolving the three supported tags from the composition root yields
the k-means adapter over the k-means backend, the density-based adapter over
the density-based backend, and the mode-seeking adapter over the
mode-seeking backend, and every resolvable tag yields a strategy whose
adapter family equals its backend family. -/
theorem c1_selector_matches_families :
    Container.algorithm "kmeans" =
      some ⟨Adapter.kmeansAdapter, SklearnBackend.sklearnKMeans⟩ ∧
    Container.algorithm "dbscan" =
      some ⟨Adapter.dbscanAdapter, SklearnBackend.sklearnDBSCAN⟩ ∧
    Container.algorithm "mean_shift" =
      some ⟨Adapter.meanShiftAdapter, SklearnBackend.sklearnMeanShift⟩ ∧
    ∀ (t : String) (s : Strategy), Container.algorithm t = some s →
      s.adapter.family = s.backend.family := by
  refine ⟨rfl, rfl, rfl, ?_⟩
  intro t s h
  unfold Container.algorithm at h
  split at h <;> simp_all <;> subst h <;> rfl

/-- Witness for C1 at the dbscan tag. -/
theorem c1_selector_matches_families_witness :
    Adapter.family Adapter.dbscanAdapter =
      SklearnBackend.family SklearnBackend.sklearnDBSCAN :=
  c1_selector_matches_families.2.2.2 "dbscan"
    ⟨Adapter.dbscanAdapter, SklearnBackend.sklearnDBSCAN⟩ rfl

/-- C7: resolving an algorithm tag or an output format tag absent from the
composition root's selection mapping fails (no provider is found), never
yielding a default strategy or default output encoder. -/
theorem c7_unsupported_selection_fails :
    (∀ t : String, t ≠ "kmeans" → t ≠ "dbscan" → t ≠ "mean_shift" →
       Container.algorithm t = none) ∧
    (∀ f : String, f ≠ "numpy" → f ≠ "json" →
       Container.output_handler f = none) := by
  constructor
  · intro t h1 h2 h3
    unfold Container.algorithm
    split <;> simp_all
  · intro f h1 h2
    unfold Container.output_handler
    split <;> simp_all

/-- Witness for C7 at an unknown algorithm tag and the csv output format
(which the general validator's schema tolerates but the selection table
does not know). -/
theorem c7_unsupported_selection_fails_witness :
    Container.algorithm "spectral" = none ∧
    Container.output_handler "csv" = none :=
  ⟨c7_unsupported_selection_fails.1 "spectral" (by decide) (by decide)
      (by decide),
   c7_unsupported_selection_fails.2 "csv" (by decide) (by decide)⟩

/-- C8: `load_data` fails immediately when the input path does not exist;
when it exists, a `.npy` path loads the stored binary numeric array, a
`.json` path loads the stored nested numeric array converted to an array,
and any other suffix raises the unsupported-format error. -/
theorem c8_load_data_dispatch :
    (∀ f : InputFile, f.pathExists = false →
       InputHandler.load_data f = Except.error LoadError.fileNotFound) ∧
    (∀ (arr : NDArray) (f : InputFile), f.pathExists = true →
       f.suffix = ".npy" → f.content = FileContent.npyContent arr →
       InputHandler.load_data f = Except.ok arr) ∧
    (∀ (nested : List (List Int)) (f : InputFile), f.pathExists = true →
       f.suffix = ".json" → f.content = FileContent.jsonContent nested →
       InputHandler.load_data f = Except.ok (npArray nested)) ∧
    (∀ f : InputFile, f.pathExists = true → f.suffix ≠ ".npy" →
       f.suffix ≠ ".json" →
       InputHandler.load_data f = Except.error LoadError.unsupportedFormat) :=
  by
  refine ⟨?_, ?_, ?_, ?_⟩
  · intro f h
    simp [InputHandler.load_data, h]
  · intro arr f h1 h2 h3
    simp [InputHandler.load_data, h1, h2, h3]
  · intro nested f h1 h2 h3
    simp [InputHandler.load_data, h1, h2, h3]
  · intro f h1 h2 h3
    simp [InputHandler.load_data, h1, h2, h3]

/-- Witness for C8 at four concrete files: a missing path, an existing
npy file, an existing json file and an existing txt file. -/
theorem c8_load_data_dispatch_witness :
    InputHandler.load_data ⟨false, ".npy", FileContent.npyContent dataSix⟩ =
      Except.error LoadError.fileNotFound ∧
    InputHandler.load_data ⟨true, ".npy", FileContent.npyContent dataSix⟩ =
      Except.ok dataSix ∧
    InputHandler.load_data ⟨true, ".json", FileContent.jsonContent dataSix⟩ =
      Except.ok (npArray dataSix) ∧
    InputHandler.load_data ⟨true, ".txt", FileContent.otherContent⟩ =
      Except.error LoadError.unsupportedFormat :=
  ⟨c8_load_data_dispatch.1 _ rfl,
   c8_load_data_dispatch.2.1 dataSix _ rfl rfl rfl,
   c8_load_data_dispatch.2.2.1 dataSix _ rfl rfl rfl,
   c8_load_data_dispatch.2.2.2 _ rfl (by decide) (by decide)⟩

/-- C9: a dataset stored as a binary numeric array and the equivalent
content stored as a JSON nested numeric array load to identical in-memory
datasets through `load_data`. -/
theorem c9_npy_json_roundtrip : ∀ nested : List (List Int),
    InputHandler.load_data
      ⟨true, ".npy", FileContent.npyContent (npArray nested)⟩ =
      Except.ok (npArray nested) ∧
    InputHandler.load_data
      ⟨true, ".json", FileContent.jsonContent nested⟩ =
      Except.ok (npArray nested) := by
  intro nested
  exact ⟨rfl, rfl⟩

/-- C5 counterexample: the general validator silently accepts a
configuration whose output_data_format is csv (outside the spec's
numpy/json set, but permitted by the schema's literal, data_model.py line
22) and whose input_data_path is the empty string, where the claim requires
rejection. -/
theorem c5_counterexample_csv_accepted :
    ConfigValidator.validate_data ConfigModel.validate csvConfig =
      Except.ok () ∧
    csvConfig.output_data_format = some (YamlVal.strVal "csv") ∧
    csvConfig.input_data_path = some (YamlVal.strVal "") := by
  refine ⟨?_, rfl, rfl⟩
  rfl

/-- C5 amended: on configurations whose three universal fields hold string
values, the general validator accepts exactly when algorithm_type is one of
the three supported tags and output_data_format is one of numpy, csv, json;
input_data_path may be any string, the empty string included. -/
theorem c5_amended_general_acceptance : ∀ a p f : String,
    (ConfigValidator.validate_data ConfigModel.validate
       ⟨some (YamlVal.strVal a), some (YamlVal.strVal p),
        some (YamlVal.strVal f), none⟩ = Except.ok ()) ↔
    ((a = "kmeans" ∨ a = "dbscan" ∨ a = "mean_shift") ∧
     (f = "numpy" ∨ f = "csv" ∨ f = "json")) := by
  intro a p f
  rw [validate_data_ok_iff]
  simp [ConfigModel.validate, literalCheck, coerceStr, algorithmTags,
    outputFormats]

/-- The float 2.7, built as the reduced fraction 27/10. -/
def twoPointSeven : Rat := ⟨27, 10, by decide, by decide⟩

/-- C6 counterexample: the algorithm-specific kmeans validator silently
accepts a configuration whose n_clusters value is the non-integer float
2.7 (the int-typed field truncates floats), where the claim requires the
generic configuration error. -/
theorem c6_counterexample_float_accepted :
    ConfigValidator.validate_data KMeansModel.validate
      (kmConfigWith (some (YamlVal.floatVal twoPointSeven))) =
      Except.ok () ∧
    twoPointSeven.num = 27 ∧ twoPointSeven.den = 10 ∧
    twoPointSeven.den ≠ 1 := by
  refine ⟨?_, by decide, by decide, by decide⟩
  rfl

/-- C6 amended: a kmeans configuration (otherwise valid) fails with the
single generic typed configuration error exactly when its n_clusters value
is not coercible to an integer or coerces to a non-positive integer, where
coercion keeps integers, truncates floats toward zero, reads booleans as
0 or 1 and parses integer strings; with n_clusters equal to the integer 2
it validates silently. -/
theorem c6_amended_kmeans_n_clusters :
    (∀ v : Option YamlVal,
       (ConfigValidator.validate_data KMeansModel.validate (kmConfigWith v) =
          Except.ok () ↔ ∃ n : Int, coerceInt v = some n ∧ 0 < n) ∧
       (ConfigValidator.validate_data KMeansModel.validate (kmConfigWith v) =
          Except.ok () ∨
        ConfigValidator.validate_data KMeansModel.validate (kmConfigWith v) =
          Except.error ConfigError.configFileNotCorrect)) ∧
    ConfigValidator.validate_data KMeansModel.validate
      (kmConfigWith (some (YamlVal.intVal 2))) = Except.ok () := by
  refine ⟨fun v => ⟨?_, validate_data_cases _ _⟩, rfl⟩
  rw [validate_data_ok_iff]
  simp only [KMeansModel.validate, kmConfigWith, kmParamsWith,
    KMeansParamsConfig.validate, literalCheck, coerceStr, coerceOptInt,
    outputFormats]
  cases hv : coerceInt v with
  | none => simp [hv, coerceInt]
  | some n => simp [hv, coerceInt]
